import Mathlib

/-!
Verification of the slot-to-grid resolver of ipywidgets
(src/ipywidgets/widgets/widget_templates.py).

The file embeds `AppLayout._update_layout` (the 5-slot "cross" topology),
`TwoByTwoLayout._update_layout` (the 4-slot "quadrant" topology), the
`_child_changed` observers and the `@observe(All)` delegation
`LayoutTemplate._delegate_to_layout` as pure Lean functions, and proves
properties of those functions.

Modelling conventions:
* A slot's occupant is opaque; only its presence matters to the resolver,
  so a slot assignment is a record of `Bool`s (one per position).  The
  occupant of a present position is identified by its position name.
* Python list indexing, element assignment and `del` (including negative
  indices) are embedded as `Option`-returning operations that return `none`
  exactly when Python would raise `IndexError`.  The resolvers run in the
  `Option` monad; `none` models an uncaught exception.
* The resolver's three observable behaviours are the constructors of
  `UpdateResult`: `error` (an exception escaped), `noUpdate` (the early
  `return` when no child is present — nothing is written), and
  `update spec` (the full write-out performed at the end of
  `_update_layout`).
-/

/-- Python index normalisation: a negative index counts from the end;
an index outside `[0, len)` after normalisation is an `IndexError`. -/
def pyIdx (len : Nat) (i : Int) : Option Nat :=
  let j : Int := if i < 0 then i + (len : Int) else i
  if 0 ≤ j ∧ j < (len : Int) then some j.toNat else none

/-- Python `xs[i]`. -/
def pyGet {α : Type} (xs : List α) (i : Int) : Option α :=
  (pyIdx xs.length i).bind (fun j => xs.get? j)

/-- Python `xs[i] = v`. -/
def pySet {α : Type} (xs : List α) (i : Int) (v : α) : Option (List α) :=
  (pyIdx xs.length i).map (fun j => xs.set j v)

/-- Python `del xs[i]`. -/
def pyDel {α : Type} (xs : List α) (i : Int) : Option (List α) :=
  (pyIdx xs.length i).map (fun j => xs.eraseIdx j)

/-- Python `xs[i][j]` on a matrix. -/
def pyGet2 {α : Type} (xs : List (List α)) (i j : Int) : Option α :=
  (pyGet xs i).bind (fun row => pyGet row j)

/-- Python `xs[i][j] = v` on a matrix (fetch row `i`, assign within it). -/
def pySet2 {α : Type} (xs : List (List α)) (i j : Int) (v : α) :
    Option (List (List α)) :=
  (pyGet xs i).bind (fun row =>
    (pySet row j v).bind (fun row2 => pySet xs i row2))

/-- Output of one successful `AppLayout._update_layout` pass: the area
matrix, the two track lists, and the present positions in the insertion
order of the `children` dict (each present occupant's `grid_area` tag is
its own position name, exactly the entries of `children`). -/
structure GridSpec where
  areas : List (List String)
  columns : List String
  rows : List String
  children : List String
deriving DecidableEq

/-- Output of one successful `TwoByTwoLayout._update_layout` pass; the
track strings are the literals `1fr 1fr`, so only the matrix and the
children vary. -/
structure QuadSpec where
  areas : List (List String)
  children : List String
deriving DecidableEq

/-- The three observable behaviours of one `_update_layout` call. -/
inductive UpdateResult (α : Type) where
  | error : UpdateResult α
  | noUpdate : UpdateResult α
  | update : α → UpdateResult α
deriving DecidableEq

/-- Presence pattern for the cross topology, field order as in the
`all_children` dict of `AppLayout._update_layout`. -/
structure CrossPresence where
  header : Bool
  footer : Bool
  left_sidebar : Bool
  right_sidebar : Bool
  center : Bool
deriving DecidableEq

/-- The `all_children` dict of `AppLayout._update_layout` (line 130):
position name paired with presence, in insertion order. -/
def crossAll (p : CrossPresence) : List (String × Bool) :=
  [("header", p.header), ("footer", p.footer),
   ("left-sidebar", p.left_sidebar), ("right-sidebar", p.right_sidebar),
   ("center", p.center)]

/-- The `children` dict comprehension (line 136): present positions in
insertion order. -/
def crossChildren (p : CrossPresence) : List String :=
  (crossAll p).filterMap (fun pc => if pc.2 then some pc.1 else none)

/-- Shallow embedding of `AppLayout._update_layout` (lines 122-189).
`none` models an uncaught `IndexError`; `some noUpdate` the early
`return` on an empty `children` dict; `some (update s)` the write-out. -/
def cross_update_layout (p : CrossPresence) (merge : Bool) :
    Option (UpdateResult GridSpec) :=
  let children := crossChildren p
  if children.isEmpty then some UpdateResult.noUpdate
  else do
    let mut grid_template_areas : List (List String) :=
      [["header", "header", "header"],
       ["left-sidebar", "center", "right-sidebar"],
       ["footer", "footer", "footer"]]
    let mut grid_template_columns : List String := ["1fr", "2fr", "1fr"]
    let mut grid_template_rows : List String := ["1fr", "3fr", "1fr"]
    if merge then
      if children.length == 1 then
        let position ← pyGet children 0
        grid_template_areas := [[position, position, position],
                                [position, position, position],
                                [position, position, position]]
      else
        if p.center == false then
          grid_template_areas ← grid_template_areas.mapM (fun row => pyDel row 1)
          grid_template_columns ← pyDel grid_template_columns 1
        if p.left_sidebar == false then
          let v ← pyGet2 grid_template_areas 1 1
          grid_template_areas ← pySet2 grid_template_areas 1 0 v
        if p.right_sidebar == false then
          let v ← pyGet2 grid_template_areas 1 (-2)
          grid_template_areas ← pySet2 grid_template_areas 1 (-1) v
        if p.left_sidebar == false && p.right_sidebar == false &&
            p.center == false then
          grid_template_areas := [["header"], ["footer"]]
          grid_template_columns := ["1fr"]
          grid_template_rows := ["1fr", "1fr"]
        if p.header == false then
          grid_template_areas ← pyDel grid_template_areas 0
          grid_template_rows ← pyDel grid_template_rows 0
        if p.footer == false then
          grid_template_areas ← pyDel grid_template_areas (-1)
          grid_template_rows ← pyDel grid_template_rows (-1)
    return UpdateResult.update
      ⟨grid_template_areas, grid_template_columns, grid_template_rows, children⟩

/-- One `AppLayout._update_layout` call, with exceptions surfaced. -/
def crossRun (p : CrossPresence) (merge : Bool) : UpdateResult GridSpec :=
  (cross_update_layout p merge).getD UpdateResult.error

/-- Presence pattern for the quadrant topology, field order as in the
`all_children` dict of `TwoByTwoLayout._update_layout`. -/
structure QuadPresence where
  top_left : Bool
  top_right : Bool
  bottom_left : Bool
  bottom_right : Bool
deriving DecidableEq

/-- The `all_children` dict of `TwoByTwoLayout._update_layout` (line 238). -/
def quadAll (p : QuadPresence) : List (String × Bool) :=
  [("top-left", p.top_left), ("top-right", p.top_right),
   ("bottom-left", p.bottom_left), ("bottom-right", p.bottom_right)]

/-- The `children` dict comprehension (line 243). -/
def quadChildren (p : QuadPresence) : List String :=
  (quadAll p).filterMap (fun pc => if pc.2 then some pc.1 else none)

/-- Body of the `for i, column in enumerate(columns)` loop of
`TwoByTwoLayout._update_layout` (lines 261-273) for one column index,
mutating the matrix in place exactly as the Python statements do. -/
def quadColumnStep (children : List String) (i : Int)
    (areas : List (List String)) : Option (List (List String)) :=
  let column := if i == 0 then "left" else "right"
  let top := children.contains ("top-" ++ column)
  let bottom := children.contains ("bottom-" ++ column)
  let i_neighbour : Int := (i + 1) % 2
  if top == false && bottom == false then do
    let v0 ← pyGet2 areas 0 i_neighbour
    let areas1 ← pySet2 areas 0 i v0
    let v1 ← pyGet2 areas1 1 i_neighbour
    pySet2 areas1 1 i v1
  else if top == false then do
    let v ← pyGet2 areas 1 i
    pySet2 areas 0 i v
  else if bottom == false then do
    let v ← pyGet2 areas 0 i
    pySet2 areas 1 i v
  else some areas

/-- Shallow embedding of `TwoByTwoLayout._update_layout` (lines 232-282),
conventions as in `cross_update_layout`. -/
def quad_update_layout (p : QuadPresence) (merge : Bool) :
    Option (UpdateResult QuadSpec) :=
  let children := quadChildren p
  if children.isEmpty then some UpdateResult.noUpdate
  else do
    let mut grid_template_areas : List (List String) :=
      [["top-left", "top-right"], ["bottom-left", "bottom-right"]]
    if merge then
      if children.length == 1 then
        let position ← pyGet children 0
        grid_template_areas := [[position, position], [position, position]]
      else
        grid_template_areas ← quadColumnStep children 0 grid_template_areas
        grid_template_areas ← quadColumnStep children 1 grid_template_areas
    return UpdateResult.update ⟨grid_template_areas, children⟩

/-- One `TwoByTwoLayout._update_layout` call, with exceptions surfaced. -/
def quadRun (p : QuadPresence) (merge : Bool) : UpdateResult QuadSpec :=
  (quad_update_layout p merge).getD UpdateResult.error

/-- Serialisation of the area matrix (lines 182-183 / 275-276):
each row space-joined and quote-wrapped, rows newline-joined. -/
def areasToCss (areas : List (List String)) : String :=
  String.intercalate "\n"
    (areas.map (fun line => "\"" ++ String.intercalate " " line ++ "\""))

/-- The state written by `AppLayout._update_layout`: the three
grid-template attributes of `self.layout`, the `grid_area` attribute on
each position's occupant widget (kept as `Option` so an unwritten tag is
distinguishable), and `self.children` (as position names). -/
structure CrossLayoutState where
  grid_template_columns : String
  grid_template_rows : String
  grid_template_areas : String
  headerArea : Option String
  footerArea : Option String
  leftSidebarArea : Option String
  rightSidebarArea : Option String
  centerArea : Option String
  children : List String
deriving DecidableEq

/-- Effect of one `AppLayout._update_layout` call on the written state:
`noUpdate` (and the unreachable `error`) leave everything as it was;
`update s` writes the serialised tracks and areas, tags every present
occupant with its own position name, and replaces `self.children`. -/
def applyCross (r : UpdateResult GridSpec) (st : CrossLayoutState) :
    CrossLayoutState :=
  match r with
  | UpdateResult.update s =>
      { grid_template_columns := String.intercalate " " s.columns
        grid_template_rows := String.intercalate " " s.rows
        grid_template_areas := areasToCss s.areas
        headerArea :=
          if s.children.contains "header" then some "header" else st.headerArea
        footerArea :=
          if s.children.contains "footer" then some "footer" else st.footerArea
        leftSidebarArea :=
          if s.children.contains "left-sidebar" then some "left-sidebar"
          else st.leftSidebarArea
        rightSidebarArea :=
          if s.children.contains "right-sidebar" then some "right-sidebar"
          else st.rightSidebarArea
        centerArea :=
          if s.children.contains "center" then some "center" else st.centerArea
        children := s.children }
  | _ => st

/-- `AppLayout._child_changed` (lines 191-193): any watched-slot
assignment re-runs `_update_layout` against the new presence pattern. -/
def crossChildChanged (p : CrossPresence) (merge : Bool)
    (st : CrossLayoutState) : CrossLayoutState :=
  applyCross (crossRun p merge) st

/-- The state written by `TwoByTwoLayout._update_layout`. -/
structure QuadLayoutState where
  grid_template_columns : String
  grid_template_rows : String
  grid_template_areas : String
  topLeftArea : Option String
  topRightArea : Option String
  bottomLeftArea : Option String
  bottomRightArea : Option String
  children : List String
deriving DecidableEq

/-- Effect of one `TwoByTwoLayout._update_layout` call on the written
state; the track strings are the literals of lines 278-279. -/
def applyQuad (r : UpdateResult QuadSpec) (st : QuadLayoutState) :
    QuadLayoutState :=
  match r with
  | UpdateResult.update s =>
      { grid_template_columns := "1fr 1fr"
        grid_template_rows := "1fr 1fr"
        grid_template_areas := areasToCss s.areas
        topLeftArea :=
          if s.children.contains "top-left" then some "top-left"
          else st.topLeftArea
        topRightArea :=
          if s.children.contains "top-right" then some "top-right"
          else st.topRightArea
        bottomLeftArea :=
          if s.children.contains "bottom-left" then some "bottom-left"
          else st.bottomLeftArea
        bottomRightArea :=
          if s.children.contains "bottom-right" then some "bottom-right"
          else st.bottomRightArea
        children := s.children }
  | _ => st

/-- `TwoByTwoLayout._child_changed` (lines 285-287). -/
def quadChildChanged (p : QuadPresence) (merge : Bool)
    (st : QuadLayoutState) : QuadLayoutState :=
  applyQuad (quadRun p merge) st

/-- A Python attribute value, for the trait-delegation model. -/
inductive PyVal where
  | pyNone : PyVal
  | widget : Nat → PyVal
  | str : String → PyVal
  | bool : Bool → PyVal
deriving DecidableEq

/-- Python `setattr` on an attribute dictionary. -/
def setattr (attrs : List (String × PyVal)) (name : String) (v : PyVal) :
    List (String × PyVal) :=
  match attrs with
  | [] => [(name, v)]
  | (k, w) :: t =>
      if k = name then (name, v) :: t else (k, w) :: setattr t name v

/-- Python `getattr` on an attribute dictionary. -/
def getattr (attrs : List (String × PyVal)) (name : String) : Option PyVal :=
  match attrs with
  | [] => none
  | (k, w) :: t => if k = name then some w else getattr t name

/-- Observable container state for the observer glue: the owned layout
object's attribute dictionary and a counter of `_update_layout` runs. -/
structure ContainerState where
  layoutAttrs : List (String × PyVal)
  recomputeCount : Nat
deriving DecidableEq

/-- The slot names watched by `AppLayout._child_changed`
(the `@observe` list on line 191). -/
def crossSlotNames : List String :=
  ["footer", "header", "center", "left_sidebar", "right_sidebar"]

/-- Effect of one trait assignment on an `AppLayout` container:
`LayoutTemplate._delegate_to_layout` (`@observe(All)`, lines 81-85)
forwards every trait write to the same-named attribute of `self.layout`,
and `AppLayout._child_changed` additionally re-runs `_update_layout`
exactly when the written trait is one of the five watched slots. -/
def crossTraitWrite (name : String) (v : PyVal) (st : ContainerState) :
    ContainerState :=
  let st1 : ContainerState :=
    { layoutAttrs := setattr st.layoutAttrs name v
      recomputeCount := st.recomputeCount }
  if crossSlotNames.contains name then
    { st1 with recomputeCount := st1.recomputeCount + 1 }
  else st1

/-- Area matrix of a quadrant resolver run, when one was emitted. -/
def quadAreasOf (p : QuadPresence) (merge : Bool) :
    Option (List (List String)) :=
  match quadRun p merge with
  | UpdateResult.update s => some s.areas
  | _ => none

/-- Cell `(r, c)` of the matrix emitted by a merge-enabled quadrant run. -/
def quadCell (p : QuadPresence) (r c : Int) : Option String :=
  match quadRun p true with
  | UpdateResult.update s => pyGet2 s.areas r c
  | _ => none

/-- Area matrix of a cross resolver run, when one was emitted. -/
def crossAreasOf (p : CrossPresence) (merge : Bool) :
    Option (List (List String)) :=
  match crossRun p merge with
  | UpdateResult.update s => some s.areas
  | _ => none

/-- Row count of the matrix emitted by a merge-enabled cross run. -/
def crossRowsCount (p : CrossPresence) : Nat :=
  match crossRun p true with
  | UpdateResult.update s => s.areas.length
  | _ => 0

/-- Column count of the matrix emitted by a merge-enabled cross run. -/
def crossColsCount (p : CrossPresence) : Nat :=
  match crossRun p true with
  | UpdateResult.update s => (s.areas.headD []).length
  | _ => 0

/-- Pointwise inclusion of presence patterns: every position present in
`t` is present in `s`. -/
def crossLe (t s : CrossPresence) : Bool :=
  (!t.header || s.header) && (!t.footer || s.footer) &&
  (!t.left_sidebar || s.left_sidebar) &&
  (!t.right_sidebar || s.right_sidebar) && (!t.center || s.center)

/-- Tag invariant for one cross run: a `GridSpec` was emitted, and every
present position occurs exactly once among the tagged children and in at
least one cell of the emitted matrix. -/
def tagsOkCross (p : CrossPresence) (merge : Bool) : Bool :=
  match crossRun p merge with
  | UpdateResult.update s =>
      (crossAll p).all (fun pc =>
        !pc.2 || (s.children.count pc.1 == 1 &&
                  s.areas.any (fun row => row.contains pc.1)))
  | _ => false

/-- Tag invariant for one quadrant run. -/
def tagsOkQuad (p : QuadPresence) (merge : Bool) : Bool :=
  match quadRun p merge with
  | UpdateResult.update s =>
      (quadAll p).all (fun pc =>
        !pc.2 || (s.children.count pc.1 == 1 &&
                  s.areas.any (fun row => row.contains pc.1)))
  | _ => false

/-- The four fields of the written state that `_update_layout`
overwrites wholesale on every non-empty cross run. -/
def crossGridFields (st : CrossLayoutState) :
    String × String × String × List String :=
  (st.grid_template_columns, st.grid_template_rows,
   st.grid_template_areas, st.children)

/-- Every present cross occupant carries its own position name as tag. -/
def crossPresentTagged (p : CrossPresence) (st : CrossLayoutState) : Bool :=
  (!p.header || (st.headerArea == some "header")) &&
  (!p.footer || (st.footerArea == some "footer")) &&
  (!p.left_sidebar || (st.leftSidebarArea == some "left-sidebar")) &&
  (!p.right_sidebar || (st.rightSidebarArea == some "right-sidebar")) &&
  (!p.center || (st.centerArea == some "center"))

/-- The four fields that every non-empty quadrant run overwrites. -/
def quadGridFields (st : QuadLayoutState) :
    String × String × String × List String :=
  (st.grid_template_columns, st.grid_template_rows,
   st.grid_template_areas, st.children)

/-- Every present quadrant occupant carries its own position name. -/
def quadPresentTagged (p : QuadPresence) (st : QuadLayoutState) : Bool :=
  (!p.top_left || (st.topLeftArea == some "top-left")) &&
  (!p.top_right || (st.topRightArea == some "top-right")) &&
  (!p.bottom_left || (st.bottomLeftArea == some "bottom-left")) &&
  (!p.bottom_right || (st.bottomRightArea == some "bottom-right"))

theorem getattr_setattr (l : List (String × PyVal)) (name : String)
    (v : PyVal) : getattr (setattr l name v) name = some v := by
  induction l with
  | nil => simp [setattr, getattr]
  | cons hd t ih =>
      obtain ⟨k, w⟩ := hd
      by_cases hk : k = name
      · subst hk
        simp [setattr, getattr]
      · simp [setattr, getattr, hk, ih]

/-- C1 counterexample: for the quadrant topology with merge enabled and
occupants at top-left and bottom-right only, the resolver does NOT
produce the matrix `[["top-left","top-left"],["bottom-right","bottom-right"]]`
stated by the claim. -/
theorem c1_counterexample :
    quadAreasOf ⟨true, false, false, true⟩ true ≠
      some [["top-left", "top-left"], ["bottom-right", "bottom-right"]] := by
  decide

/-- C1 (amended): for the quadrant topology with merge enabled and
occupants at top-left and bottom-right only, the top-right cell takes
bottom-right's value (merged with the cell below it) and the bottom-left
cell takes top-left's value (merged with the cell above it), yielding
the matrix `[["top-left","bottom-right"],["top-left","bottom-right"]]`. -/
theorem c1_amended :
    quadAreasOf ⟨true, false, false, true⟩ true =
      some [["top-left", "bottom-right"], ["top-left", "bottom-right"]] := by
  decide

/-- C2 counterexample: two quadrant assignments with the same (empty)
right-column presence but different left-column presence — top-left plus
bottom-left versus top-left alone — give different bottom-right cells
(`"bottom-left"` versus `"top-left"`, via the singleton full-bleed
collapse), so the claim fails as stated over all slot assignments. -/
theorem c2_counterexample :
    quadCell ⟨true, false, true, false⟩ 1 1 = some "bottom-left" ∧
    quadCell ⟨true, false, false, false⟩ 1 1 = some "top-left" ∧
    quadCell ⟨true, false, true, false⟩ 1 1 ≠
      quadCell ⟨true, false, false, false⟩ 1 1 := by
  decide

/-- C2 (amended): for the quadrant topology with merge enabled, for every
two slot assignments that BOTH have at least two present occupants, have
the same presence pattern on the right column and differ only in the left
column, the resolved matrix's right-column cells are identical across the
two runs. -/
theorem c2_amended : ∀ atl abl btl bbl tr br : Bool,
    2 ≤ (quadChildren ⟨atl, tr, abl, br⟩).length →
    2 ≤ (quadChildren ⟨btl, tr, bbl, br⟩).length →
    quadCell ⟨atl, tr, abl, br⟩ 0 1 = quadCell ⟨btl, tr, bbl, br⟩ 0 1 ∧
    quadCell ⟨atl, tr, abl, br⟩ 1 1 = quadCell ⟨btl, tr, bbl, br⟩ 1 1 := by
  decide

theorem c2_witness :
    2 ≤ (quadChildren ⟨true, true, false, false⟩).length ∧
    2 ≤ (quadChildren ⟨false, true, true, false⟩).length ∧
    (quadCell ⟨true, true, false, false⟩ 0 1 =
       quadCell ⟨false, true, true, false⟩ 0 1 ∧
     quadCell ⟨true, true, false, false⟩ 1 1 =
       quadCell ⟨false, true, true, false⟩ 1 1) :=
  ⟨by decide, by decide,
   c2_amended true false false true true false (by decide) (by decide)⟩

/-- C3 counterexample: take S = header plus center and T = header alone
(a non-empty subset of S).  The singleton full-bleed collapse gives T a
3-row matrix while S resolves to 2 rows, so the row count increases as
positions become absent, refuting the claim as stated. -/
theorem c3_counterexample :
    crossLe ⟨true, false, false, false, false⟩
        ⟨true, false, false, false, true⟩ = true ∧
    1 ≤ (crossChildren ⟨true, false, false, false, false⟩).length ∧
    crossRowsCount ⟨true, false, false, false, true⟩ = 2 ∧
    crossRowsCount ⟨true, false, false, false, false⟩ = 3 ∧
    ¬ (crossRowsCount ⟨true, false, false, false, false⟩ ≤
        crossRowsCount ⟨true, false, false, false, true⟩) := by
  decide

/-- C3 (amended): for the cross topology with merge enabled, for every
pair of presence subsets T ⊆ S where T has at least two present
positions, the matrix computed for T has no more rows and no more
columns than the matrix computed for S. -/
theorem c3_amended : ∀ th tf tl tr tc sh sf sl sr sc : Bool,
    crossLe ⟨th, tf, tl, tr, tc⟩ ⟨sh, sf, sl, sr, sc⟩ = true →
    2 ≤ (crossChildren ⟨th, tf, tl, tr, tc⟩).length →
    crossRowsCount ⟨th, tf, tl, tr, tc⟩ ≤
        crossRowsCount ⟨sh, sf, sl, sr, sc⟩ ∧
    crossColsCount ⟨th, tf, tl, tr, tc⟩ ≤
        crossColsCount ⟨sh, sf, sl, sr, sc⟩ := by
  decide

theorem c3_witness :
    crossLe ⟨true, true, false, false, false⟩
        ⟨true, true, true, false, true⟩ = true ∧
    2 ≤ (crossChildren ⟨true, true, false, false, false⟩).length ∧
    (crossRowsCount ⟨true, true, false, false, false⟩ ≤
        crossRowsCount ⟨true, true, true, false, true⟩ ∧
     crossColsCount ⟨true, true, false, false, false⟩ ≤
        crossColsCount ⟨true, true, true, false, true⟩) :=
  ⟨by decide, by decide,
   c3_amended true true false false false true true true false true
     (by decide) (by decide)⟩

/-- C4 counterexample: the assignment that sets the last remaining
occupant to absent does NOT rewrite the layout: with every position
absent, `_child_changed` runs `_update_layout`, which returns before
writing anything, so two different prior layout states remain different
(an unconditional rewrite would have made them equal). -/
theorem c4_counterexample :
    crossChildChanged ⟨false, false, false, false, false⟩ true
        ⟨"colsA", "rowsA", "areasA", none, none, none, none, none, []⟩ ≠
      crossChildChanged ⟨false, false, false, false, false⟩ true
        ⟨"colsB", "rowsA", "areasA", none, none, none, none, none, []⟩ := by
  decide

/-- C4 (amended): every assignment to a watched slot attribute that
leaves at least one occupant present triggers a recomputation and an
unconditional rewrite of the layout's column tracks, row tracks and
area-template string, of the container's visible-children list (those
four fields of the post-state are independent of the prior state), and
of each present occupant's area tag (set to its own position name) — for
both the cross and the quadrant topology; the assignment that sets the
last remaining occupant to absent is excluded (it is a no-op). -/
theorem c4_amended :
    (∀ (h f l r c m : Bool) (st st2 : CrossLayoutState),
      1 ≤ (crossChildren ⟨h, f, l, r, c⟩).length →
      crossGridFields (crossChildChanged ⟨h, f, l, r, c⟩ m st) =
        crossGridFields (crossChildChanged ⟨h, f, l, r, c⟩ m st2) ∧
      crossPresentTagged ⟨h, f, l, r, c⟩
        (crossChildChanged ⟨h, f, l, r, c⟩ m st) = true) ∧
    (∀ (tl tr bl br m : Bool) (st st2 : QuadLayoutState),
      1 ≤ (quadChildren ⟨tl, tr, bl, br⟩).length →
      quadGridFields (quadChildChanged ⟨tl, tr, bl, br⟩ m st) =
        quadGridFields (quadChildChanged ⟨tl, tr, bl, br⟩ m st2) ∧
      quadPresentTagged ⟨tl, tr, bl, br⟩
        (quadChildChanged ⟨tl, tr, bl, br⟩ m st) = true) := by
  constructor
  · intro h f l r c m st st2 hc
    cases h <;> cases f <;> cases l <;> cases r <;> cases c <;> cases m <;>
      first
        | exact absurd hc (by decide)
        | exact ⟨rfl, rfl⟩
  · intro tl tr bl br m st st2 hc
    cases tl <;> cases tr <;> cases bl <;> cases br <;> cases m <;>
      first
        | exact absurd hc (by decide)
        | exact ⟨rfl, rfl⟩

theorem c4_witness :
    (crossGridFields (crossChildChanged ⟨true, true, false, false, false⟩ true
        ⟨"a", "b", "c", none, none, none, none, none, []⟩) =
      crossGridFields (crossChildChanged ⟨true, true, false, false, false⟩ true
        ⟨"x", "y", "z", some "w", none, none, none, none, ["q"]⟩) ∧
     crossPresentTagged ⟨true, true, false, false, false⟩
       (crossChildChanged ⟨true, true, false, false, false⟩ true
         ⟨"a", "b", "c", none, none, none, none, none, []⟩) = true) ∧
    (quadGridFields (quadChildChanged ⟨true, false, false, true⟩ true
        ⟨"a", "b", "c", none, none, none, none, []⟩) =
      quadGridFields (quadChildChanged ⟨true, false, false, true⟩ true
        ⟨"x", "y", "z", some "w", none, none, none, ["q"]⟩) ∧
     quadPresentTagged ⟨true, false, false, true⟩
       (quadChildChanged ⟨true, false, false, true⟩ true
         ⟨"a", "b", "c", none, none, none, none, []⟩) = true) :=
  ⟨c4_amended.1 true true false false false true
      ⟨"a", "b", "c", none, none, none, none, none, []⟩
      ⟨"x", "y", "z", some "w", none, none, none, none, ["q"]⟩ (by decide),
   c4_amended.2 true false false true true
      ⟨"a", "b", "c", none, none, none, none, []⟩
      ⟨"x", "y", "z", some "w", none, none, none, ["q"]⟩ (by decide)⟩

/-- C5: when every position is absent, `_update_layout` performs no
output update in either topology: the written layout state — tracks,
area template, every occupant area tag and the children list — is
returned unchanged, and the call signals no error (it takes the
deliberate early-return path, not the exception path). -/
theorem c5_empty_noop : ∀ (m : Bool) (st : CrossLayoutState)
    (stq : QuadLayoutState),
    crossChildChanged ⟨false, false, false, false, false⟩ m st = st ∧
    quadChildChanged ⟨false, false, false, false⟩ m stq = stq ∧
    crossRun ⟨false, false, false, false, false⟩ m =
      UpdateResult.noUpdate ∧
    quadRun ⟨false, false, false, false⟩ m = UpdateResult.noUpdate :=
  fun _ _ _ => ⟨rfl, rfl, rfl, rfl⟩

/-- C6 counterexample: with merge disabled and the empty presence subset
(one of the 2⁵ subsets the claim quantifies over), the resolver emits
nothing at all — it takes the early no-op return — rather than emitting
the fixed base geometry. -/
theorem c6_counterexample :
    crossAreasOf ⟨false, false, false, false, false⟩ false = none ∧
    crossRun ⟨false, false, false, false, false⟩ false =
      UpdateResult.noUpdate := by
  decide

/-- C6 (amended): for all 31 NON-EMPTY presence subsets of the cross
topology with merge disabled, the resolver emits the fixed base
geometry unchanged — columns `1fr 2fr 1fr`, rows `1fr 3fr 1fr` and the
verbatim 3×3 base area matrix — with only the present-occupant list
varying; the all-absent subset is instead a no-op that emits nothing. -/
theorem c6_amended : ∀ h f l r c : Bool,
    1 ≤ (crossChildren ⟨h, f, l, r, c⟩).length →
    crossRun ⟨h, f, l, r, c⟩ false = UpdateResult.update
      ⟨[["header", "header", "header"],
        ["left-sidebar", "center", "right-sidebar"],
        ["footer", "footer", "footer"]],
       ["1fr", "2fr", "1fr"], ["1fr", "3fr", "1fr"],
       crossChildren ⟨h, f, l, r, c⟩⟩ := by
  decide

theorem c6_witness :
    1 ≤ (crossChildren ⟨true, false, false, false, false⟩).length ∧
    crossRun ⟨true, false, false, false, false⟩ false = UpdateResult.update
      ⟨[["header", "header", "header"],
        ["left-sidebar", "center", "right-sidebar"],
        ["footer", "footer", "footer"]],
       ["1fr", "2fr", "1fr"], ["1fr", "3fr", "1fr"],
       crossChildren ⟨true, false, false, false, false⟩⟩ :=
  ⟨by decide, c6_amended true false false false false (by decide)⟩

/-- C7: for the cross topology with merge enabled, whenever the three
middle positions are all absent and at least two occupants are present
(forcing header and footer to be the present ones), the resolver emits
exactly the matrix `[["header"],["footer"]]` with columns `["1fr"]` and
rows `["1fr","1fr"]`, discarding the matrix built by the earlier
reduction steps. -/
theorem c7_header_footer : ∀ h f l r c : Bool,
    l = false → r = false → c = false →
    2 ≤ (crossChildren ⟨h, f, l, r, c⟩).length →
    crossRun ⟨h, f, l, r, c⟩ true = UpdateResult.update
      ⟨[["header"], ["footer"]], ["1fr"], ["1fr", "1fr"],
       ["header", "footer"]⟩ := by
  decide

theorem c7_witness :
    2 ≤ (crossChildren ⟨true, true, false, false, false⟩).length ∧
    crossRun ⟨true, true, false, false, false⟩ true = UpdateResult.update
      ⟨[["header"], ["footer"]], ["1fr"], ["1fr", "1fr"],
       ["header", "footer"]⟩ :=
  ⟨by decide,
   c7_header_footer true true false false false rfl rfl rfl (by decide)⟩

/-- C8: for every non-empty slot assignment in either topology and
either merge setting, every present occupant is tagged exactly once,
with its own position name, and that name appears in at least one cell
of the resolved area matrix. -/
theorem c8_tag_invariant :
    (∀ h f l r c m : Bool, 1 ≤ (crossChildren ⟨h, f, l, r, c⟩).length →
      tagsOkCross ⟨h, f, l, r, c⟩ m = true) ∧
    (∀ tl tr bl br m : Bool, 1 ≤ (quadChildren ⟨tl, tr, bl, br⟩).length →
      tagsOkQuad ⟨tl, tr, bl, br⟩ m = true) := by
  constructor <;> decide

theorem c8_witness :
    tagsOkCross ⟨true, true, true, true, true⟩ true = true ∧
    tagsOkQuad ⟨true, false, false, true⟩ true = true :=
  ⟨c8_tag_invariant.1 true true true true true true (by decide),
   c8_tag_invariant.2 true false false true true (by decide)⟩

/-- C9: the resolver raises no exception for any presence pattern of
either topology, with merge enabled or disabled: every Python list
index, negative index and deletion it performs is within bounds, so the
error outcome is unreachable. -/
theorem c9_no_exception :
    (∀ h f l r c m : Bool,
      crossRun ⟨h, f, l, r, c⟩ m ≠ UpdateResult.error) ∧
    (∀ tl tr bl br m : Bool,
      quadRun ⟨tl, tr, bl, br⟩ m ≠ UpdateResult.error) := by
  constructor <;> decide

/-- C10: the `@observe(All)` handler `_delegate_to_layout` forwards
every trait write — any attribute name, including the slot attributes
and the merge flag — to the same-named attribute of the owned layout
object, and writing `merge` triggers no grid recomputation because only
the five slot names are watched by `_child_changed` (while a slot write
such as `header` does trigger exactly one recomputation). -/
theorem c10_delegation :
    (∀ (name : String) (v : PyVal) (st : ContainerState),
      getattr (crossTraitWrite name v st).layoutAttrs name = some v) ∧
    (∀ (v : PyVal) (st : ContainerState),
      (crossTraitWrite "merge" v st).recomputeCount = st.recomputeCount) ∧
    (∀ (v : PyVal) (st : ContainerState),
      (crossTraitWrite "header" v st).recomputeCount =
        st.recomputeCount + 1) := by
  refine ⟨?_, ?_, ?_⟩
  · intro name v st
    unfold crossTraitWrite
    split
    · exact getattr_setattr st.layoutAttrs name v
    · exact getattr_setattr st.layoutAttrs name v
  · intro v st
    rfl
  · intro v st
    rfl
